import Mathlib

/-
Verification of the async-sdk-engine HTTP request batching layer.

The development embeds the request-descriptor construction, the method
dispatch table, the error classifier and the batch dispatcher of
src/src/http_requests.py and src/src/errors.py as executable Lean
definitions, and proves the spec claims about them.

Python values that flow through the client (request bodies, parsed JSON
error payloads, params) are modelled with a single inductive `Json` type:
the code under verification never inspects their structure except where
noted, so this is a universal value model.
-/

namespace AsyncSdk

/-- JSON-like values: the model of arbitrary Python values handled by the
client (request bodies, params, parsed response content). `null` models
Python None, which is also what json.loads produces for a JSON null. -/
inductive Json where
  | null : Json
  | bool : Bool → Json
  | num : Int → Json
  | str : String → Json
  | arr : List Json → Json
  | obj : List (String × Json) → Json
deriving Repr

/-- Lookup of a key in a parsed JSON object, modelling Python dict.get
(returns the absent value when the key is missing). Objects produced by
json.loads have pairwise distinct keys, so first match equals last match. -/
def lookupKey : List (String × Json) → String → Option Json
  | [], _ => none
  | (k, v) :: rest, key => if k = key then some v else lookupKey rest key

/-- Model of a raw HTTP response body (httpx response.content) together with
the outcome of the external library calls the classifier makes on it:
json.loads and bytes.decode.
  * `empty`: the body is the empty byte string (falsy in Python);
  * `jsonBytes j`: a non-empty body that json.loads parses to the value j;
  * `textBytes t`: a non-empty body on which json.loads raises
    JSONDecodeError and which decodes from UTF-8 to the text t. -/
inductive Content where
  | empty : Content
  | jsonBytes : Json → Content
  | textBytes : String → Content
deriving Repr

/-- Python truthiness of httpx response.content (bytes): empty is falsy. -/
def content_truthy : Content → Bool
  | .empty => false
  | _ => true

/-- RequestInfo from src/src/http_requests.py lines 36-64: a named tuple of
method, path, params and body. -/
structure RequestInfo where
  method : String
  path : String
  params : Option Json
  body : Option Json
deriving Repr

/-- Model of Python str.upper: uppercases every character. On the ASCII
strings the client compares (HTTP method names), Char.toUpper agrees with
the Python per-character uppercase mapping. -/
def pyUpper (s : String) : String := ⟨s.data.map Char.toUpper⟩

/-- RequestInfo construction, embedding RequestInfo.__new__
(src/src/http_requests.py lines 53-64): when method.upper() is GET or
DELETE the body argument is discarded and None is stored. -/
def RequestInfo.new (method path : String)
    (params : Option Json := none) (body : Option Json := none) :
    RequestInfo :=
  if pyUpper method = "GET" ∨ pyUpper method = "DELETE" then
    ⟨method, path, params, none⟩
  else
    ⟨method, path, params, body⟩

/-- The five transport operations of the httpx AsyncClient that
get_method_by_name can return. -/
inductive Method where
  | get : Method
  | post : Method
  | put : Method
  | patch : Method
  | delete : Method
deriving DecidableEq, Repr

/-- AsyncHandler.get_method_by_name (src/src/http_requests.py lines
169-187): dictionary lookup of method_name.upper() in the method map,
with client.get as the default for unrecognized names. The dictionary has
distinct keys, so the lookup is equivalent to this if-chain. -/
def get_method_by_name (method_name : String) : Method :=
  if pyUpper method_name = "GET" then .get
  else if pyUpper method_name = "POST" then .post
  else if pyUpper method_name = "PUT" then .put
  else if pyUpper method_name = "PATCH" then .patch
  else if pyUpper method_name = "DELETE" then .delete
  else .get

/-- The Python __name__ attribute of the bound client method a Method
stands for: client.get.__name__ is "get", and so on. make_request branches
on this name. -/
def methodName : Method → String
  | .get => "get"
  | .post => "post"
  | .put => "put"
  | .patch => "patch"
  | .delete => "delete"

/-- The argument shape of one transport call: GET and DELETE calls carry
only params, all other methods also carry the JSON body. -/
inductive CallArgs where
  | paramsOnly : String → Option Json → CallArgs
  | withJsonBody : String → Option Json → Option Json → CallArgs
deriving Repr

/-- Argument selection inside AsyncHandler.make_request
(src/src/http_requests.py lines 124-129): the call passes only params when
the resolved method is named get or delete, and params plus json=body
otherwise. -/
def request_call_args (m : Method) (path : String)
    (params body : Option Json) : CallArgs :=
  if methodName m = "get" ∨ methodName m = "delete" then
    .paramsOnly path params
  else
    .withJsonBody path params body

/-- Status predicate of httpx Response.is_client_error: 400 ≤ status ≤ 499. -/
def is_client_error (status : Nat) : Bool := 400 ≤ status ∧ status ≤ 499

/-- Status predicate of httpx Response.is_server_error: 500 ≤ status ≤ 599. -/
def is_server_error (status : Nat) : Bool := 500 ≤ status ∧ status ≤ 599

/-- Status predicate of httpx Response.is_success: 200 ≤ status ≤ 299.
Response.raise_for_status raises HTTPStatusError exactly when the status
is not a success status. -/
def is_success (status : Nat) : Bool := 200 ≤ status ∧ status ≤ 299

/-- ApiError.find_error_type_from_response (src/src/errors.py lines 87-98):
classify a failed response by its status code. The final branch is the
defensive fallback the code logs a warning for. -/
def find_error_type_from_response (status : Nat) : String :=
  if is_client_error status then "Client error"
  else if is_server_error status then "Server error"
  else "Not a request error. The  error handling has a bug"

/-- ApiError.error_parse_json_or_utf8 (src/src/errors.py lines 60-79): when
json.loads fails the body is decoded from UTF-8; when it yields a dict the
result is dict.get of the errors key (None when absent); any other parsed
value is returned whole. An empty body is not jsonable and decodes to the
empty string. -/
def error_parse_json_or_utf8 : Content → Json
  | .empty => .str ""
  | .textBytes t => .str t
  | .jsonBytes j =>
    match j with
    | .obj kvs => (lookupKey kvs "errors").getD .null
    | _ => j

/-- The fields of an ApiError (src/src/errors.py lines 26-43) that the
claims are about. -/
structure ApiErrorModel where
  status_code : Nat
  reason_phrase : String
  errors : Json
  error_type : String
deriving Repr

/-- ApiError.__init__ (src/src/errors.py lines 26-43): the errors field
starts as the empty string and is replaced by the parsed diagnostic body
only when response.content is truthy (non-empty). -/
def mkApiError (status : Nat) (reason : String) (content : Content) :
    ApiErrorModel :=
  { status_code := status
    reason_phrase := reason
    errors :=
      if content_truthy content then error_parse_json_or_utf8 content
      else .str ""
    error_type := find_error_type_from_response status }

/-- The error taxonomy raised by AsyncHandler.make_request: a
CommunicationError for transport failures, an ApiError for non-success
statuses under raise_on_error. -/
inductive Failure where
  | communicationError : String → Failure
  | apiError : ApiErrorModel → Failure
deriving Repr

/-- Model of one httpx transport response as far as the client inspects
it: status code, raw content and reason phrase. -/
structure HttpResponse where
  status_code : Nat
  content : Content
  reason_phrase : String
deriving Repr

/-- The outcome of one awaited transport call: either a response, or one
of the three transport exceptions make_request catches (carrying the str
of the underlying error). -/
inductive TransportOutcome where
  | response : Nat → Content → String → TransportOutcome
  | connectError : String → TransportOutcome
  | connectTimeout : String → TransportOutcome
  | remoteProtocolError : String → TransportOutcome
deriving Repr

/-- Transport-level failure outcomes: the exceptions of the except clause
at src/src/http_requests.py line 131. -/
def isTransportError : TransportOutcome → Bool
  | .connectError _ => true
  | .connectTimeout _ => true
  | .remoteProtocolError _ => true
  | .response _ _ _ => false

/-- The str of the underlying transport exception. -/
def transportMsg : TransportOutcome → String
  | .connectError m => m
  | .connectTimeout m => m
  | .remoteProtocolError m => m
  | .response _ _ _ => ""

/-- The response an outcome carries, when it is a response. -/
def asResponse : TransportOutcome → Option HttpResponse
  | .response s c r => some ⟨s, c, r⟩
  | _ => none

/-- AsyncHandler.make_request (src/src/http_requests.py lines 102-139)
after the transport call resolved to the given outcome: a transport
exception is converted to CommunicationError regardless of any flag; then,
when raise_on_error is set and raise_for_status raises (non-2xx status),
an ApiError built from the response is raised; otherwise the response is
returned unchanged for appending to the shared results list. -/
def make_request (raise_on_error : Bool) (outcome : TransportOutcome) :
    Except Failure HttpResponse :=
  match outcome with
  | .connectError m => .error (.communicationError m)
  | .connectTimeout m => .error (.communicationError m)
  | .remoteProtocolError m => .error (.communicationError m)
  | .response status content reason =>
    if raise_on_error then
      if is_success status then .ok ⟨status, content, reason⟩
      else .error (.apiError (mkApiError status reason content))
    else
      .ok ⟨status, content, reason⟩

/-- AsyncHandler.send_requests (src/src/http_requests.py lines 141-167)
run under the trio nursery semantics: the tasks of one batch complete in
some order (the input list is the completion-ordered sequence of transport
outcomes chosen by the scheduler); each completed make_request either
appends its response or raises, and the first raise cancels every
not-yet-completed task and propagates out of the nursery, so no later
outcome is observed. The second component counts the transport calls that
actually ran. -/
def send_requests_run (raise_on_error : Bool) :
    List TransportOutcome → Except Failure (List HttpResponse) × Nat
  | [] => (.ok [], 0)
  | o :: rest =>
    match make_request raise_on_error o with
    | .error f => (.error f, 1)
    | .ok r =>
      match send_requests_run raise_on_error rest with
      | (.error f, n) => (.error f, n + 1)
      | (.ok rs, n) => (.ok (r :: rs), n + 1)

/-- The batch result of send_requests: the responses in completion order,
or the first failure. -/
def send_requests (raise_on_error : Bool)
    (outcomes : List TransportOutcome) :
    Except Failure (List HttpResponse) :=
  (send_requests_run raise_on_error outcomes).1

/-- The number of transport calls a batch performs before it finishes or
is aborted. -/
def transport_calls (raise_on_error : Bool)
    (outcomes : List TransportOutcome) : Nat :=
  (send_requests_run raise_on_error outcomes).2

/-- Requests.client_requests (src/src/http_requests.py lines 215-247) from
the point where the request list is dispatched: run the batch, then return
responses[0] when exactly one response was collected and the whole list
otherwise. A raised Failure propagates out of trio.run to the caller. -/
def client_requests (raise_on_error : Bool)
    (outcomes : List TransportOutcome) :
    Except Failure (HttpResponse ⊕ List HttpResponse) :=
  match send_requests raise_on_error outcomes with
  | .error f => .error f
  | .ok rs =>
    match rs with
    | [r] => .ok (.inl r)
    | _ => .ok (.inr rs)

/-- The capacity of the trio.CapacityLimiter created in
AsyncHandler.send_requests (src/src/http_requests.py line 156). -/
def dispatcher_capacity : Nat := 50

/-- State of one batch dispatch, counting the tasks of the nursery by
phase: not yet holding a limiter slot, in flight (inside the async-with of
the limiter, performing the transport call), and completed with success or
with failure. -/
structure DispatchState where
  waiting : Nat
  inflight : Nat
  doneOk : Nat
  doneFail : Nat
deriving DecidableEq, Repr

/-- Transitions of one batch under the trio CapacityLimiter semantics and
the async-with scoping of make_request (src/src/http_requests.py lines
121-139): a waiting task acquires a slot only when fewer than cap tasks
hold one; a task that holds a slot releases it when its call completes,
whether the call returns a response or raises, because the async-with
block releases on both paths. -/
inductive DispatchStep (cap : Nat) : DispatchState → DispatchState → Prop where
  | acquire {s : DispatchState} (hw : 0 < s.waiting) (hc : s.inflight < cap) :
      DispatchStep cap s ⟨s.waiting - 1, s.inflight + 1, s.doneOk, s.doneFail⟩
  | finishOk {s : DispatchState} (hr : 0 < s.inflight) :
      DispatchStep cap s ⟨s.waiting, s.inflight - 1, s.doneOk + 1, s.doneFail⟩
  | finishFail {s : DispatchState} (hr : 0 < s.inflight) :
      DispatchStep cap s ⟨s.waiting, s.inflight - 1, s.doneOk, s.doneFail + 1⟩

/-- States reachable by a batch of n tasks: initially all n tasks wait for
a slot and none is in flight. -/
inductive DispatchReachable (cap n : Nat) : DispatchState → Prop where
  | init : DispatchReachable cap n ⟨n, 0, 0, 0⟩
  | step {s t : DispatchState} :
      DispatchReachable cap n s → DispatchStep cap s t →
      DispatchReachable cap n t

/-- The diagnostic-body extraction exactly as claim C6 words it, for
comparison with the code: the errors key only when the mapping contains
it, else the whole parsed value. -/
def claimed_diagnostic_body : Content → Json
  | .empty => .str ""
  | .textBytes t => .str t
  | .jsonBytes j =>
    match j with
    | .obj kvs =>
      match lookupKey kvs "errors" with
      | some v => v
      | none => .obj kvs
    | _ => j

/-- The diagnostic-body extraction as amended to match the code: a parsed
mapping always yields dict.get of the errors key, which is the absent
value (None) when the key is missing; a parsed non-mapping yields the
whole value; an unparseable body yields its UTF-8 decoding; an empty body
yields the empty string. -/
def amended_diagnostic_body : Content → Json
  | .empty => .str ""
  | .textBytes t => .str t
  | .jsonBytes j =>
    match j with
    | .obj kvs => (lookupKey kvs "errors").getD .null
    | _ => j

/-! Helper lemmas shared by the claim theorems. -/

theorem is_success_iff (s : Nat) : is_success s = true ↔ 200 ≤ s ∧ s ≤ 299 := by
  simp [is_success]

theorem is_client_error_iff (s : Nat) :
    is_client_error s = true ↔ 400 ≤ s ∧ s ≤ 499 := by
  simp [is_client_error]

theorem is_server_error_iff (s : Nat) :
    is_server_error s = true ↔ 500 ≤ s ∧ s ≤ 599 := by
  simp [is_server_error]

theorem find_error_type_client (s : Nat) (h1 : 400 ≤ s) (h2 : s ≤ 499) :
    find_error_type_from_response s = "Client error" := by
  unfold find_error_type_from_response
  rw [if_pos ((is_client_error_iff s).mpr ⟨h1, h2⟩)]

theorem find_error_type_server (s : Nat) (h1 : 500 ≤ s) (h2 : s ≤ 599) :
    find_error_type_from_response s = "Server error" := by
  unfold find_error_type_from_response
  rw [if_neg, if_pos ((is_server_error_iff s).mpr ⟨h1, h2⟩)]
  simp [is_client_error_iff]
  omega

theorem make_request_response_raise (s : Nat) (c : Content) (r : String)
    (h : ¬ (200 ≤ s ∧ s ≤ 299)) :
    make_request true (.response s c r) =
      .error (.apiError (mkApiError s r c)) := by
  have hs : is_success s = false := by
    rw [← Bool.not_eq_true, is_success_iff]; exact h
  simp [make_request, hs]

theorem make_request_response_no_raise (s : Nat) (c : Content) (r : String) :
    make_request false (.response s c r) = .ok ⟨s, c, r⟩ := rfl

theorem make_request_transport (b : Bool) (o : TransportOutcome)
    (h : isTransportError o = true) :
    make_request b o = .error (.communicationError (transportMsg o)) := by
  cases o with
  | response s c r => simp [isTransportError] at h
  | connectError m => rfl
  | connectTimeout m => rfl
  | remoteProtocolError m => rfl

theorem send_requests_run_ok_length (b : Bool)
    (outs : List TransportOutcome) (rs : List HttpResponse) (n : Nat)
    (h : send_requests_run b outs = (.ok rs, n)) :
    rs.length = outs.length := by
  induction outs generalizing rs n with
  | nil =>
    simp only [send_requests_run] at h
    obtain ⟨h1, _⟩ := Prod.mk.injEq .. ▸ h
    cases h
    rfl
  | cons o rest ih =>
    simp only [send_requests_run] at h
    cases hmk : make_request b o with
    | error f => rw [hmk] at h; cases h
    | ok r =>
      rw [hmk] at h
      cases hrec : send_requests_run b rest with
      | mk res m =>
        cases res with
        | error f => rw [hrec] at h; cases h
        | ok rs2 =>
          rw [hrec] at h
          cases h
          simp [ih rs2 m hrec]

theorem send_requests_run_abort (b : Bool)
    (pre suf : List TransportOutcome) (e : TransportOutcome)
    (hok : ∀ o ∈ pre, ∃ r, make_request b o = .ok r)
    (he : isTransportError e = true) :
    send_requests_run b (pre ++ e :: suf) =
      (.error (.communicationError (transportMsg e)), pre.length + 1) := by
  induction pre with
  | nil =>
    simp only [List.nil_append, send_requests_run,
      make_request_transport b e he, List.length_nil]
  | cons o rest ih =>
    obtain ⟨r, hr⟩ := hok o (List.mem_cons_self o rest)
    have ih2 := ih (fun o2 ho2 => hok o2 (List.mem_cons_of_mem o ho2))
    simp only [List.cons_append, send_requests_run, hr, List.append_eq, ih2,
      List.length_cons]

/-- C1: for every constructed RequestInfo, when the method compared per the
upper-casing rule is GET or DELETE the stored body is None regardless of
the supplied body argument, and for every other method the stored body
equals the supplied body argument unchanged. -/
theorem requestInfo_body_normalization (method path : String)
    (params body : Option Json) :
    ((pyUpper method = "GET" ∨ pyUpper method = "DELETE") →
      (RequestInfo.new method path params body).body = none) ∧
    (¬ (pyUpper method = "GET" ∨ pyUpper method = "DELETE") →
      (RequestInfo.new method path params body).body = body) := by
  refine ⟨fun h => ?_, fun h => ?_⟩ <;> simp only [RequestInfo.new]
  · rw [if_pos h]
  · rw [if_neg h]

/-- Witness for C1 at the concrete methods GET and POST with a supplied
body. -/
theorem requestInfo_body_normalization_witness :
    (RequestInfo.new "GET" "/p" none (some (Json.str "x"))).body = none ∧
    (RequestInfo.new "POST" "/p" none (some (Json.str "x"))).body =
      some (Json.str "x") :=
  ⟨(requestInfo_body_normalization "GET" "/p" none (some (Json.str "x"))).1
      (Or.inl (by decide)),
   (requestInfo_body_normalization "POST" "/p" none (some (Json.str "x"))).2
      (by decide)⟩

/-- C10: method handling is case-insensitive at both construction and
dispatch: any method string that upper-cases to GET or DELETE gets its
body forced to None, and get_method_by_name matches each of the five known
methods up to letter case before falling back to GET. -/
theorem method_handling_case_insensitive :
    (∀ (method path : String) (params body : Option Json),
      (pyUpper method = "GET" ∨ pyUpper method = "DELETE") →
      (RequestInfo.new method path params body).body = none) ∧
    (∀ s, pyUpper s = "GET" → get_method_by_name s = .get) ∧
    (∀ s, pyUpper s = "POST" → get_method_by_name s = .post) ∧
    (∀ s, pyUpper s = "PUT" → get_method_by_name s = .put) ∧
    (∀ s, pyUpper s = "PATCH" → get_method_by_name s = .patch) ∧
    (∀ s, pyUpper s = "DELETE" → get_method_by_name s = .delete) ∧
    (∀ s, pyUpper s ≠ "GET" → pyUpper s ≠ "POST" → pyUpper s ≠ "PUT" →
      pyUpper s ≠ "PATCH" → pyUpper s ≠ "DELETE" →
      get_method_by_name s = .get) := by
  refine ⟨fun method path params body h => ?_, fun s h => ?_, fun s h => ?_,
    fun s h => ?_, fun s h => ?_, fun s h => ?_,
    fun s h1 h2 h3 h4 h5 => ?_⟩
  · simp only [RequestInfo.new]; rw [if_pos h]
  all_goals simp only [get_method_by_name]
  · rw [h]; decide
  · rw [h]; decide
  · rw [h]; decide
  · rw [h]; decide
  · rw [h]; decide
  · rw [if_neg h1, if_neg h2, if_neg h3, if_neg h4, if_neg h5]

/-- Witness for C10 at mixed-case method strings. -/
theorem method_handling_case_insensitive_witness :
    (RequestInfo.new "gEt" "/p" none (some (Json.str "b"))).body = none ∧
    (RequestInfo.new "Delete" "/p" none (some (Json.str "b"))).body = none ∧
    get_method_by_name "Delete" = .delete ∧
    get_method_by_name "pAtCh" = .patch ∧
    get_method_by_name "post" = .post ∧
    get_method_by_name "yolo" = .get :=
  ⟨method_handling_case_insensitive.1 "gEt" "/p" none (some (Json.str "b"))
      (Or.inl (by decide)),
   method_handling_case_insensitive.1 "Delete" "/p" none (some (Json.str "b"))
      (Or.inr (by decide)),
   method_handling_case_insensitive.2.2.2.2.2.1 "Delete" (by decide),
   method_handling_case_insensitive.2.2.2.2.1 "pAtCh" (by decide),
   method_handling_case_insensitive.2.2.1 "post" (by decide),
   method_handling_case_insensitive.2.2.2.2.2.2 "yolo" (by decide)
     (by decide) (by decide) (by decide) (by decide)⟩

/-- C7: the transport call is selected by the upper-cased method name with
GET as the fallback for unrecognized names, and the dispatched call passes
only params for methods named get or delete, while every other method also
passes the body as JSON. -/
theorem dispatch_method_and_call_shape :
    (get_method_by_name "GET" = .get ∧ get_method_by_name "POST" = .post ∧
     get_method_by_name "PUT" = .put ∧ get_method_by_name "PATCH" = .patch ∧
     get_method_by_name "DELETE" = .delete) ∧
    (∀ s, pyUpper s ≠ "GET" → pyUpper s ≠ "POST" → pyUpper s ≠ "PUT" →
      pyUpper s ≠ "PATCH" → pyUpper s ≠ "DELETE" →
      get_method_by_name s = .get) ∧
    (∀ (m : Method) (path : String) (params body : Option Json),
      (m = .get ∨ m = .delete) →
      request_call_args m path params body = .paramsOnly path params) ∧
    (∀ (m : Method) (path : String) (params body : Option Json),
      m ≠ .get → m ≠ .delete →
      request_call_args m path params body =
        .withJsonBody path params body) := by
  refine ⟨by decide, fun s h1 h2 h3 h4 h5 => ?_,
    fun m path params body h => ?_, fun m path params body h1 h2 => ?_⟩
  · simp only [get_method_by_name]
    rw [if_neg h1, if_neg h2, if_neg h3, if_neg h4, if_neg h5]
  · rcases h with h | h <;> subst h <;> rfl
  · cases m with
    | get => exact absurd rfl h1
    | delete => exact absurd rfl h2
    | post => rfl
    | put => rfl
    | patch => rfl

/-- Witness for C7 at an unrecognized method name and concrete dispatched
calls. -/
theorem dispatch_method_and_call_shape_witness :
    get_method_by_name "yeet" = .get ∧
    request_call_args .delete "/p" (some (Json.str "q")) (some (Json.str "b")) =
      .paramsOnly "/p" (some (Json.str "q")) ∧
    request_call_args .post "/p" (some (Json.str "q")) (some (Json.str "b")) =
      .withJsonBody "/p" (some (Json.str "q")) (some (Json.str "b")) :=
  ⟨dispatch_method_and_call_shape.2.1 "yeet" (by decide) (by decide)
     (by decide) (by decide) (by decide),
   dispatch_method_and_call_shape.2.2.1 .delete "/p" (some (Json.str "q"))
     (some (Json.str "b")) (Or.inr rfl),
   dispatch_method_and_call_shape.2.2.2 .post "/p" (some (Json.str "q"))
     (some (Json.str "b")) (by decide) (by decide)⟩

/-- C3: under raise_on_error, every response with status in [400, 599]
makes make_request raise an ApiError whose error_type is Client error
exactly when the status is in 400-499 and Server error exactly when the
status is in 500-599. -/
theorem status_failure_classification (status : Nat) (content : Content)
    (reason : String) (h4 : 400 ≤ status) (h5 : status ≤ 599) :
    make_request true (.response status content reason) =
      .error (.apiError (mkApiError status reason content)) ∧
    ((mkApiError status reason content).error_type = "Client error" ↔
      status ≤ 499) ∧
    ((mkApiError status reason content).error_type = "Server error" ↔
      500 ≤ status) := by
  refine ⟨make_request_response_raise status content reason (by omega),
    ?_, ?_⟩ <;> simp only [mkApiError]
  · constructor
    · intro h
      by_contra hgt
      rw [find_error_type_server status (by omega) h5] at h
      exact absurd h (by decide)
    · intro h
      exact find_error_type_client status h4 h
  · constructor
    · intro h
      by_contra hlt
      rw [find_error_type_client status h4 (by omega)] at h
      exact absurd h (by decide)
    · intro h
      exact find_error_type_server status h h5

/-- Witness for C3 at statuses 404 and 503. -/
theorem status_failure_classification_witness :
    (make_request true (.response 404 .empty "Not Found") =
      .error (.apiError (mkApiError 404 "Not Found" .empty)) ∧
    ((mkApiError 404 "Not Found" .empty).error_type = "Client error" ↔
      (404 : Nat) ≤ 499) ∧
    ((mkApiError 404 "Not Found" .empty).error_type = "Server error" ↔
      (500 : Nat) ≤ 404)) ∧
    ((mkApiError 503 "Service Unavailable" .empty).error_type =
      "Server error" ↔ (500 : Nat) ≤ 503) :=
  ⟨status_failure_classification 404 .empty "Not Found" (by decide)
     (by decide),
   (status_failure_classification 503 .empty "Service Unavailable"
     (by decide) (by decide)).2.2⟩

/-- C4: with raise_on_error disabled, every response is treated as a
success whatever its status: make_request never raises a StatusFailure
and returns the response unchanged for appending, so a batch of responses
(for example one 404 and one 200) succeeds with every response present. -/
theorem no_raise_returns_all_responses :
    (∀ (s : Nat) (c : Content) (r : String),
      make_request false (.response s c r) = .ok ⟨s, c, r⟩) ∧
    (∀ outs : List TransportOutcome,
      (∀ o ∈ outs, isTransportError o = false) →
      send_requests false outs = .ok (outs.filterMap asResponse)) := by
  refine ⟨fun s c r => rfl, fun outs h => ?_⟩
  induction outs with
  | nil => rfl
  | cons o rest ih =>
    have ho : isTransportError o = false := h o (List.mem_cons_self o rest)
    have ih2 := ih (fun o2 ho2 => h o2 (List.mem_cons_of_mem o ho2))
    cases o with
    | response s c r =>
      simp only [send_requests, send_requests_run,
        make_request_response_no_raise]
      simp only [send_requests] at ih2
      cases hrec : send_requests_run false rest with
      | mk res n =>
        rw [hrec] at ih2
        cases res with
        | error f => exact absurd ih2 (by simp)
        | ok rs =>
          simp only at ih2
          cases ih2
          simp [List.filterMap_cons, asResponse]
    | connectError m => simp [isTransportError] at ho
    | connectTimeout m => simp [isTransportError] at ho
    | remoteProtocolError m => simp [isTransportError] at ho

/-- Witness for C4: a batch mixing a 404 and a 200 response under
raise_on_error false returns both responses. -/
theorem no_raise_returns_all_responses_witness :
    send_requests false
      [.response 404 .empty "Not Found", .response 200 .empty "OK"] =
      .ok [⟨404, .empty, "Not Found"⟩, ⟨200, .empty, "OK"⟩] := by
  rw [no_raise_returns_all_responses.2
    [.response 404 .empty "Not Found", .response 200 .empty "OK"]
    (by decide)]
  rfl

/-- C6 counterexample: for a body that parses to a JSON mapping without a
top-level errors key, the code stores None (dict.get of a missing key) as
the ApiError errors field, while the claim says the whole parsed value is
used. -/
theorem diagnostic_body_counterexample :
    error_parse_json_or_utf8 (.jsonBytes (.obj [("foo", .str "x")])) =
      Json.null ∧
    (mkApiError 404 "Not Found"
      (.jsonBytes (.obj [("foo", .str "x")]))).errors = Json.null ∧
    claimed_diagnostic_body (.jsonBytes (.obj [("foo", .str "x")])) =
      Json.obj [("foo", Json.str "x")] ∧
    Json.null ≠ Json.obj [("foo", Json.str "x")] :=
  ⟨rfl, rfl, rfl, fun h => Json.noConfusion h⟩

/-- C6 amended: the ApiError errors field is computed as: for a body that
parses to a JSON mapping, the value of its top-level errors key, or None
when the key is absent; for a body parsing to a non-mapping, the whole
parsed value; for a body that fails JSON parsing, its UTF-8 decoding; for
an absent body, the empty string. -/
theorem diagnostic_body_amended (status : Nat) (reason : String)
    (c : Content) :
    (mkApiError status reason c).errors = amended_diagnostic_body c := by
  cases c with
  | empty => rfl
  | textBytes t => rfl
  | jsonBytes j => cases j <;> rfl

/-- C2: whenever a dispatched batch completes successfully, a batch of
exactly one request returns the single response itself, not a one-element
list, and a batch of n at least 2 requests returns a list of exactly n
responses. The outcome list is the completion-ordered sequence of the
transport outcomes of the submitted requests, so its length is the batch
size. -/
theorem client_requests_result_shape (b : Bool)
    (outs : List TransportOutcome) (res : HttpResponse ⊕ List HttpResponse)
    (h : client_requests b outs = .ok res) :
    (outs.length = 1 → ∃ r, res = .inl r) ∧
    (2 ≤ outs.length → ∃ rs, res = .inr rs ∧ rs.length = outs.length) := by
  unfold client_requests at h
  cases hrun : send_requests_run b outs with
  | mk r2 n =>
    have hsr : send_requests b outs = r2 := by rw [send_requests, hrun]
    rw [hsr] at h
    cases r2 with
    | error f => cases h
    | ok rs =>
      have hlen : rs.length = outs.length :=
        send_requests_run_ok_length b outs rs n hrun
      match rs, hlen, h with
      | [], hlen, h =>
        cases h
        simp only [List.length_nil] at hlen
        exact ⟨fun h1 => absurd h1 (by omega), fun h2 => absurd h2 (by omega)⟩
      | [r], hlen, h =>
        cases h
        simp only [List.length_cons, List.length_nil] at hlen
        exact ⟨fun _ => ⟨r, rfl⟩, fun h2 => absurd h2 (by omega)⟩
      | r1 :: r2 :: rest, hlen, h =>
        cases h
        refine ⟨fun h1 => ?_, fun _ => ⟨r1 :: r2 :: rest, rfl, hlen⟩⟩
        simp only [List.length_cons] at hlen
        exact absurd h1 (by omega)

/-- Witness for C2: a singleton batch yields the bare response and a
two-element batch yields a list of two responses. -/
theorem client_requests_result_shape_witness :
    (∃ r, (Sum.inl (⟨200, Content.empty, "OK"⟩ : HttpResponse) :
        HttpResponse ⊕ List HttpResponse) = .inl r) ∧
    (∃ rs, (Sum.inr [(⟨200, Content.empty, "OK"⟩ : HttpResponse),
        ⟨201, Content.empty, "Created"⟩] :
        HttpResponse ⊕ List HttpResponse) = .inr rs ∧
      rs.length = ([TransportOutcome.response 200 Content.empty "OK",
        TransportOutcome.response 201 Content.empty "Created"]).length) :=
  ⟨(client_requests_result_shape true
      [.response 200 .empty "OK"] (.inl ⟨200, .empty, "OK"⟩) rfl).1 rfl,
   (client_requests_result_shape true
      [.response 200 .empty "OK", .response 201 .empty "Created"]
      (.inr [⟨200, .empty, "OK"⟩, ⟨201, .empty, "Created"⟩]) rfl).2
      (by decide)⟩

/-- C5: for every flag value and every schedule in which the requests
completing before the failure all succeeded, a request whose transport
call raises a connect error, connect timeout or remote protocol error
makes the whole batch fail with a CommunicationError carrying the
underlying error text; the remaining tasks of the batch are cancelled by
the nursery and never perform their transport call, and the caller
receives the error instead of any partial results. -/
theorem transport_error_aborts_batch (b : Bool)
    (pre suf : List TransportOutcome) (e : TransportOutcome)
    (hok : ∀ o ∈ pre, ∃ r, make_request b o = .ok r)
    (he : isTransportError e = true) :
    client_requests b (pre ++ e :: suf) =
      .error (.communicationError (transportMsg e)) ∧
    transport_calls b (pre ++ e :: suf) = pre.length + 1 := by
  have h := send_requests_run_abort b pre suf e hok he
  constructor
  · unfold client_requests send_requests
    rw [h]
  · unfold transport_calls
    rw [h]

/-- Witness for C5: with raise_on_error set, a batch whose second
completion is a connect error fails with that error and the third task
never runs its call. -/
theorem transport_error_aborts_batch_witness :
    client_requests true
      [.response 200 .empty "OK", .connectError "boom",
       .response 201 .empty "Created"] =
      .error (.communicationError "boom") ∧
    transport_calls true
      [.response 200 .empty "OK", .connectError "boom",
       .response 201 .empty "Created"] = 2 :=
  transport_error_aborts_batch true [.response 200 .empty "OK"]
    [.response 201 .empty "Created"] (.connectError "boom")
    (by
      intro o ho
      rw [List.mem_singleton] at ho
      subst ho
      exact ⟨⟨200, .empty, "OK"⟩, rfl⟩)
    rfl

/-- C9: an empty batch performs no transport calls, raises nothing, and
returns the empty list of responses, not a single response and not an
error. -/
theorem empty_batch_returns_empty_list (b : Bool) :
    client_requests b [] = .ok (.inr []) ∧ transport_calls b [] = 0 :=
  ⟨rfl, rfl⟩

/-- C8: in every execution of a dispatched batch of any size n, the number
of simultaneously in-flight transport calls never exceeds the capacity 50
of the limiter; a waiting task enters only when a slot is free and every
completing task, successful or failed, releases its slot. -/
theorem inflight_never_exceeds_capacity (n : Nat) (s : DispatchState)
    (h : DispatchReachable dispatcher_capacity n s) : s.inflight ≤ 50 := by
  induction h with
  | init => exact Nat.zero_le 50
  | step hr hstep ih =>
    cases hstep with
    | acquire hw hc => exact hc
    | finishOk hr2 => exact le_trans (Nat.sub_le _ 1) ih
    | finishFail hr2 => exact le_trans (Nat.sub_le _ 1) ih

/-- Witness for C8: a reachable state of a 200-task batch with one task in
flight satisfies the bound. -/
theorem inflight_never_exceeds_capacity_witness :
    (⟨199, 1, 0, 0⟩ : DispatchState).inflight ≤ 50 :=
  inflight_never_exceeds_capacity 200 ⟨199, 1, 0, 0⟩
    (DispatchReachable.step DispatchReachable.init
      (DispatchStep.acquire (by decide) (by decide)))

end AsyncSdk
